import Mathlib

/-
Verification of the changes-subscription subsystem of a RavenDB Go client
(`database_changes.go`): connection-state deduplication, command/confirmation
correlation, subscription filters, and close semantics.

The Go code is embedded as pure state-passing functions over an explicit
`DatabaseChanges` record.  Go maps are modelled as `Option (List (key × val))`:
`none` is Go's nil map (reads on a nil map yield the zero value, writes panic),
`some tbl` is an initialized map represented as an association list whose
`List.lookup` agrees with map indexing.  A Go runtime panic is modelled by the
`Except.error` branch with a `GoPanic` value.  External nondeterminism (the
result of the socket write, and whether a Confirm frame arrives before the
15-second bound of `GetWithTimeout`) is passed in as explicit outcome
parameters.
-/

set_option autoImplicit false

namespace Ravendb

/-- Model of Go's `strings.EqualFold` on lists of characters, restricted to the
ASCII case folding performed by `Char.toLower`; the spec's comparisons are
"case-insensitive string comparison". -/
def equalFoldList (a b : List Char) : Bool :=
  a.map Char.toLower == b.map Char.toLower

/-- Model of Go's `strings.EqualFold` on strings (ASCII folding). -/
def equalFold (s t : String) : Bool :=
  equalFoldList s.data t.data

/-- The fields of a `DocumentChange` notification consulted by the inline
filters of `database_changes.go` (document id, collection name, type name). -/
structure DocumentChange where
  ID : String
  CollectionName : String
  TypeName : String
deriving DecidableEq

/-- The field of an `IndexChange` notification consulted by `forIndex`. -/
structure IndexChange where
  Name : String
deriving DecidableEq

/-- The filter closure built by `forDocument docId` (lines 145-148): the
notification's id equals the target id, case-insensitively. -/
def forDocumentFilter (docId : String) (v : DocumentChange) : Bool :=
  equalFold v.ID docId

/-- The filter closure built by `forDocumentsStartingWith` (lines 208-216):
length-guarded slice of the id compared case-insensitively with the target
prefix.  Go slices bytes; this model slices characters, which agrees on the
ASCII inputs the claims are about. -/
def forDocumentsStartingWithFilter (pfx : String) (v : DocumentChange) : Bool :=
  let n := pfx.data.length
  if n > v.ID.data.length then false
  else equalFoldList (v.ID.data.take n) pfx.data

/-- The filter closure built by `forDocumentsInCollection` (lines 233-236). -/
def forDocumentsInCollectionFilter (collectionName : String) (v : DocumentChange) : Bool :=
  equalFold collectionName v.CollectionName

/-- The filter closure built by `forDocumentsOfType` (lines 262-266): compares
the UNescaped type name with the notification's type name. -/
def forDocumentsOfTypeFilter (typeName : String) (v : DocumentChange) : Bool :=
  equalFold typeName v.TypeName

/-- The filter closure built by `forIndex` (lines 120-123). -/
def forIndexFilter (indexName : String) (v : IndexChange) : Bool :=
  equalFold v.Name indexName

/-- Go map assignment `m[k] = v` on the underlying association list: replaces
the binding of `k` when present, otherwise appends one. -/
def assocSet {κ ν : Type} [DecidableEq κ] : List (κ × ν) → κ → ν → List (κ × ν)
  | [], k, v => [(k, v)]
  | (k', v') :: rest, k, v =>
      if k' = k then (k, v) :: rest else (k', v') :: assocSet rest k v

/-- A Go runtime panic reachable in the embedded code. -/
inductive GoPanic where
  /-- `assignment to entry in nil map` -/
  | nilMapWrite
  /-- method call dereferencing a nil pointer (nil `*websocket.Conn`) -/
  | nilPointerDeref
deriving DecidableEq

/-- Go map read `m[k]`: on a nil map every read yields the zero value
(here: `none`). -/
def goLookup {κ ν : Type} [BEq κ] (m : Option (List (κ × ν))) (k : κ) : Option ν :=
  match m with
  | none => none
  | some tbl => tbl.lookup k

/-- Go map write `m[k] = v`: panics on a nil map. -/
def goSet {κ ν : Type} [DecidableEq κ] (m : Option (List (κ × ν))) (k : κ) (v : ν) :
    Except GoPanic (List (κ × ν)) :=
  match m with
  | none => Except.error GoPanic.nilMapWrite
  | some tbl => Except.ok (assocSet tbl k v)

/-- Go `for ... range m`: a nil map has no entries. -/
def goEntries {κ ν : Type} (m : Option (List (κ × ν))) : List (κ × ν) :=
  match m with
  | none => []
  | some tbl => tbl

/-- Modelled from the spec: the repository's `CompletableFuture` (not under
src/) is "a single-assignment, awaitable result cell ... supporting completion
with a value or with a failure, bounded-wait retrieval, and cancellation".
Only its status matters to the claims. -/
inductive FutureStatus where
  | pending
  | completed
  | cancelled
deriving DecidableEq

/-- Modelled from the spec: `Complete` settles a pending future and is a no-op
on a future that is already done (single assignment). -/
def futComplete : FutureStatus → FutureStatus
  | FutureStatus.pending => FutureStatus.completed
  | s => s

/-- Modelled from the spec: `Cancel` fails a pending future and is a no-op on a
future that is already done. -/
def futCancel : FutureStatus → FutureStatus
  | FutureStatus.pending => FutureStatus.cancelled
  | s => s

/-- Apply `f` to the status of future `fid` in the future table. -/
def futSet (l : List (Nat × FutureStatus)) (fid : Nat) (f : FutureStatus → FutureStatus) :
    List (Nat × FutureStatus) :=
  l.map fun p => if p.1 = fid then (p.1, f p.2) else p

/-- Modelled from the spec: `DatabaseConnectionState` (not under src/) is the
per watch-target Subscription State.  The onConnect/onDisconnect closures built
in `getOrAddConnectionState` capture exactly the watch command, the unwatch
command and the command parameter, so the record stores those together with an
allocation identity distinguishing distinct `NewDatabaseConnectionState`
calls. -/
structure DatabaseConnectionState where
  stateId : Nat
  watchCommand : String
  unwatchCommand : String
  value : String
deriving DecidableEq

/-- The outbound frame written by `send` (lines 376-384):
`{CommandId, Command, Param}`. -/
structure OutFrame where
  CommandId : Int
  Command : String
  Param : String
deriving DecidableEq

/-- The state of one `DatabaseChanges` value (struct at lines 17-45), together
with the observable effects the claims are about: the frames written to the
socket, how many times the socket was closed, and how many times the external
dispose hook ran. -/
structure DatabaseChanges where
  /-- `_commandId` -/
  commandId : Int
  /-- whether `_client` is non-nil -/
  clientConnected : Bool
  /-- number of `_client.Close()` calls performed so far -/
  socketCloseCount : Nat
  /-- `_confirmations` : command id → future (by id); `none` is the nil map -/
  confirmations : Option (List (Int × Nat))
  /-- status of every allocated `CompletableFuture`, keyed by allocation id -/
  futures : List (Nat × FutureStatus)
  nextFutureId : Nat
  /-- `_counters` : watch-target key → Subscription State; `none` is the nil map -/
  counters : Option (List (String × DatabaseConnectionState))
  nextStateId : Nat
  /-- `_immediateConnection` -/
  immediateConnection : Int
  /-- frames written to the socket, in order -/
  sent : List OutFrame
  /-- whether `_cts` has been cancelled -/
  ctsCancelled : Bool
  /-- whether a non-nil `_onDispose` hook was supplied -/
  onDisposeSupplied : Bool
  /-- number of invocations of the dispose hook -/
  disposeCount : Nat
deriving DecidableEq

/-- `NewDatabaseChanges` (lines 47-74): note that the struct literal initializes
neither `_confirmations` nor `_counters`, so both start as Go nil maps, and
`_client` starts nil. -/
def NewDatabaseChanges (onDisposeSupplied : Bool) : DatabaseChanges :=
  { commandId := 0
    clientConnected := false
    socketCloseCount := 0
    confirmations := none
    futures := []
    nextFutureId := 0
    counters := none
    nextStateId := 0
    immediateConnection := 0
    sent := []
    ctsCancelled := false
    onDisposeSupplied := onDisposeSupplied
    disposeCount := 0 }

/-- Outcome of the `WriteJSON` socket write inside `send`, supplied by the
environment. -/
inductive WriteOutcome where
  | ok
  | fails
deriving DecidableEq

/-- Outcome of the bounded wait `GetWithTimeout(15s)` inside `send`: either a
Confirm frame completed the future within the bound, or it did not. -/
inductive WaitOutcome where
  | confirmed
  | timedOut
deriving DecidableEq

/-- The error `send` returns to its caller. -/
inductive SendError where
  | writeError
  | timeoutError
deriving DecidableEq

/-- The bound, in seconds, of the confirmation wait in `send` (line 394). -/
def sendTimeoutSeconds : Nat := 15

/-- `send` (lines 369-396): allocate the confirmation future, then under the
semaphore increment `_commandId`, write the frame, and register the pending
future under the fresh id (the registration happens even when the write
failed); after releasing, return the write error if any, otherwise wait up to
15 seconds and return nil on confirmation or the timeout error.  Nothing on any
path deletes a `_confirmations` entry.  `WriteJSON` on a nil `_client`
dereferences a nil pointer; registering into a nil `_confirmations` map
panics. -/
def send (c : DatabaseChanges) (command value : String) (w : WriteOutcome)
    (wait : WaitOutcome) : Except GoPanic (Option SendError × DatabaseChanges) :=
  let fid := c.nextFutureId
  let c := { c with
    futures := c.futures ++ [(fid, FutureStatus.pending)]
    nextFutureId := fid + 1 }
  let c := { c with commandId := c.commandId + 1 }
  let currentCommandId := c.commandId
  if c.clientConnected = false then
    Except.error GoPanic.nilPointerDeref
  else
    let werr : Bool := match w with
      | WriteOutcome.ok => false
      | WriteOutcome.fails => true
    let c := match w with
      | WriteOutcome.ok =>
          { c with sent := c.sent ++
              [({ CommandId := currentCommandId, Command := command, Param := value } : OutFrame)] }
      | WriteOutcome.fails => c
    match goSet c.confirmations currentCommandId fid with
    | Except.error p => Except.error p
    | Except.ok tbl =>
      let c := { c with confirmations := some tbl }
      if werr then Except.ok (some SendError.writeError, c)
      else
        match wait with
        | WaitOutcome.confirmed => Except.ok (none, c)
        | WaitOutcome.timedOut => Except.ok (some SendError.timeoutError, c)

/-- `getOrAddConnectionState` (lines 331-367): under the lock, return the
existing Subscription State for `name` if present; otherwise create one,
register it in `_counters` (a panic on the nil map), and when
`_immediateConnection == 0` run its onConnect, which sends the watch command
and ignores the send's error. -/
def getOrAddConnectionState (c : DatabaseChanges)
    (name watchCommand unwatchCommand value : String) (w : WriteOutcome)
    (wait : WaitOutcome) : Except GoPanic (DatabaseConnectionState × DatabaseChanges) :=
  match goLookup c.counters name with
  | some counter => Except.ok (counter, c)
  | none =>
    let counter : DatabaseConnectionState :=
      { stateId := c.nextStateId
        watchCommand := watchCommand
        unwatchCommand := unwatchCommand
        value := value }
    match goSet c.counters name counter with
    | Except.error p => Except.error p
    | Except.ok tbl =>
      let c := { c with counters := some tbl, nextStateId := c.nextStateId + 1 }
      if c.immediateConnection = 0 then
        match send c watchCommand value w wait with
        | Except.error p => Except.error p
        | Except.ok (_, c) => Except.ok (counter, c)
      else
        Except.ok (counter, c)

/-- Cancel the future of every entry of the confirmations table, as the loop at
lines 313-315 does. -/
def cancelConfirmations (entries : List (Int × Nat)) (futs : List (Nat × FutureStatus)) :
    List (Nat × FutureStatus) :=
  entries.foldl (fun fs p => futSet fs p.2 futCancel) futs

/-- `Close` (lines 311-329): cancel every confirmation future, close the socket
(`_client.Close()` dereferences nil when never connected) and nil the client,
cancel the token source, nil the `_counters` table, and finally invoke the
dispose hook when one was supplied.  The connection-status handler registry and
the wait on `_task` have no effect on the state observed by the claims. -/
def Close (c : DatabaseChanges) : Except GoPanic DatabaseChanges :=
  let c := { c with futures := cancelConfirmations (goEntries c.confirmations) c.futures }
  if c.clientConnected = false then
    Except.error GoPanic.nilPointerDeref
  else
    let c := { c with socketCloseCount := c.socketCloseCount + 1, clientConnected := false }
    let c := { c with ctsCancelled := true, counters := none }
    let c := if c.onDisposeSupplied then { c with disposeCount := c.disposeCount + 1 } else c
    Except.ok c

/-- The `Confirm` branch of `WebSocketChangesProcessor.processMessages`
(lines 489-497): when the frame carries a `CommandId`, read the pending future
from `_confirmations` (a nil-map read is fine and yields nil) and complete it
when non-nil; entries are never removed. -/
def processConfirmFrame (c : DatabaseChanges) (commandId : Option Int) : DatabaseChanges :=
  match commandId with
  | none => c
  | some cid =>
    match goLookup c.confirmations cid with
    | none => c
    | some fid => { c with futures := futSet c.futures fid futComplete }

/-- The invalid-argument error returned for empty collection/type names. -/
inductive SubscribeError where
  | illegalArgument (msg : String)
deriving DecidableEq

/-- Modelled from the spec: `NewChangesObservable` (not under src/) wraps the
Subscription State and the caller-supplied filter predicate. -/
structure DocChangesObservable where
  counter : DatabaseConnectionState
  filter : DocumentChange → Bool

/-- `forDocument` (lines 139-151). -/
def forDocument (c : DatabaseChanges) (docId : String) (w : WriteOutcome)
    (wait : WaitOutcome) : Except GoPanic (DocChangesObservable × DatabaseChanges) :=
  match getOrAddConnectionState c ("docs/" ++ docId) "watch-doc" "unwatch-doc" docId w wait with
  | Except.error p => Except.error p
  | Except.ok (counter, c) =>
      Except.ok ({ counter := counter, filter := forDocumentFilter docId }, c)

/-- `forDocumentsStartingWith` (lines 203-221). -/
def forDocumentsStartingWith (c : DatabaseChanges) (pfx : String) (w : WriteOutcome)
    (wait : WaitOutcome) : Except GoPanic (DocChangesObservable × DatabaseChanges) :=
  match getOrAddConnectionState c ("prefixes/" ++ pfx) "watch-prefix" "unwatch-prefix" pfx w wait with
  | Except.error p => Except.error p
  | Except.ok (counter, c) =>
      Except.ok ({ counter := counter, filter := forDocumentsStartingWithFilter pfx }, c)

/-- `forDocumentsInCollection` (lines 223-241): an empty collection name is
rejected before any state is touched or anything is sent. -/
def forDocumentsInCollection (c : DatabaseChanges) (collectionName : String)
    (w : WriteOutcome) (wait : WaitOutcome) :
    Except GoPanic (Except SubscribeError DocChangesObservable × DatabaseChanges) :=
  if collectionName = "" then
    Except.ok (Except.error (SubscribeError.illegalArgument "CollectionName cannot be empty"), c)
  else
    match getOrAddConnectionState c ("collections/" ++ collectionName) "watch-collection"
        "unwatch-collection" collectionName w wait with
    | Except.error p => Except.error p
    | Except.ok (counter, c) =>
        Except.ok
          (Except.ok { counter := counter, filter := forDocumentsInCollectionFilter collectionName }, c)

/-- Upper-case hexadecimal digit of a value below 16. -/
def hexUpper (n : Nat) : Char :=
  if n < 10 then Char.ofNat (48 + n) else Char.ofNat (55 + n)

/-- Characters left unescaped by percent-escaping (RFC 3986 unreserved set). -/
def isUnreservedChar (ch : Char) : Bool :=
  ch.isAlphanum || ch == '-' || ch == '_' || ch == '.' || ch == '~'

/-- UTF-8 byte values of a character. -/
def utf8ByteVals (ch : Char) : List Nat :=
  let n := ch.toNat
  if n < 0x80 then [n]
  else if n < 0x800 then [0xC0 + n / 0x40, 0x80 + n % 0x40]
  else if n < 0x10000 then
    [0xE0 + n / 0x1000, 0x80 + (n / 0x40) % 0x40, 0x80 + n % 0x40]
  else
    [0xF0 + n / 0x40000, 0x80 + (n / 0x1000) % 0x40, 0x80 + (n / 0x40) % 0x40, 0x80 + n % 0x40]

/-- Percent-escape a single character. -/
def escapeChar (ch : Char) : String :=
  if isUnreservedChar ch then String.singleton ch
  else String.join ((utf8ByteVals ch).map fun b =>
    "%" ++ String.singleton (hexUpper (b / 16)) ++ String.singleton (hexUpper (b % 16)))

/-- Modelled from the spec: `UrlUtils_escapeDataString` (not under src/)
percent-escapes the type name for the wire ("target is percent-escaped on the
wire"). -/
def UrlUtils_escapeDataString (s : String) : String :=
  String.join (s.data.map escapeChar)

/-- `forDocumentsOfType` (lines 250-271): an empty type name is rejected before
any state is touched; otherwise the ESCAPED type name becomes the wire Param of
the watch/unwatch commands while the filter compares the unescaped name. -/
def forDocumentsOfType (c : DatabaseChanges) (typeName : String) (w : WriteOutcome)
    (wait : WaitOutcome) :
    Except GoPanic (Except SubscribeError DocChangesObservable × DatabaseChanges) :=
  if typeName = "" then
    Except.ok (Except.error (SubscribeError.illegalArgument "TypeName cannot be empty"), c)
  else
    let encodedTypeName := UrlUtils_escapeDataString typeName
    match getOrAddConnectionState c ("types/" ++ typeName) "watch-type" "unwatch-type"
        encodedTypeName w wait with
    | Except.error p => Except.error p
    | Except.ok (counter, c) =>
        Except.ok
          (Except.ok { counter := counter, filter := forDocumentsOfTypeFilter typeName }, c)

/-- The watch-target keys have no duplicates in the table. -/
def keysNodup {κ ν : Type} (l : List (κ × ν)) : Prop :=
  (l.map Prod.fst).Nodup

/-- At most one Subscription State per distinct watch-target key. -/
def countersKeysNodup (c : DatabaseChanges) : Prop :=
  keysNodup (goEntries c.counters)

/-- Every registered command id is at most the current `_commandId` (so the
next id, `_commandId + 1`, is fresh). -/
def confirmationIdsBounded (c : DatabaseChanges) : Prop :=
  ∀ k fid, goLookup c.confirmations k = some fid → k ≤ c.commandId

/-- A `DatabaseChanges` value as it would be after the (not yet implemented)
connect path ran: maps initialized and the socket open.  Used as a concrete
test fixture. -/
def readyState : DatabaseChanges :=
  { NewDatabaseChanges false with
    clientConnected := true
    confirmations := some []
    counters := some [] }

/-! ### Association-list and future-table lemmas -/

theorem lookup_nil {κ ν : Type} [BEq κ] (a : κ) :
    List.lookup a ([] : List (κ × ν)) = none := rfl

theorem lookup_cons {κ ν : Type} [DecidableEq κ] [BEq κ] [LawfulBEq κ] (a k : κ) (b : ν)
    (es : List (κ × ν)) :
    List.lookup a ((k, b) :: es) = if a = k then some b else List.lookup a es := by
  by_cases h : a = k
  · subst h
    simp [List.lookup]
  · simp [List.lookup, h, beq_eq_false_iff_ne.mpr h]

theorem lookup_assocSet_self {κ ν : Type} [DecidableEq κ] [BEq κ] [LawfulBEq κ]
    (l : List (κ × ν)) (k : κ) (v : ν) : (assocSet l k v).lookup k = some v := by
  induction l with
  | nil => simp [assocSet, lookup_cons]
  | cons p rest ih =>
    obtain ⟨k', v'⟩ := p
    by_cases h : k' = k
    · subst h
      simp [assocSet, lookup_cons]
    · simp [assocSet, h, lookup_cons, Ne.symm h, ih]

theorem lookup_assocSet_ne {κ ν : Type} [DecidableEq κ] [BEq κ] [LawfulBEq κ]
    (l : List (κ × ν)) (k : κ) (v : ν) (k'' : κ) (hne : k'' ≠ k) :
    (assocSet l k v).lookup k'' = l.lookup k'' := by
  induction l with
  | nil => simp [assocSet, lookup_cons, hne]
  | cons p rest ih =>
    obtain ⟨k', v'⟩ := p
    by_cases h : k' = k
    · subst h
      simp [assocSet, lookup_cons, hne]
    · simp [assocSet, h, lookup_cons, ih]

theorem mem_keys_assocSet {κ ν : Type} [DecidableEq κ]
    (l : List (κ × ν)) (k : κ) (v : ν) (x : κ)
    (hx : x ∈ (assocSet l k v).map Prod.fst) : x = k ∨ x ∈ l.map Prod.fst := by
  induction l with
  | nil =>
    simp [assocSet] at hx
    exact Or.inl hx
  | cons p rest ih =>
    obtain ⟨k', v'⟩ := p
    by_cases h : k' = k
    · subst h
      simp [assocSet] at hx ⊢
      tauto
    · simp only [assocSet, if_neg h, List.map_cons, List.mem_cons] at hx
      rcases hx with rfl | hx'
      · simp
      · rcases ih hx' with rfl | hmem
        · exact Or.inl rfl
        · simp [hmem]

theorem keysNodup_assocSet {κ ν : Type} [DecidableEq κ]
    (l : List (κ × ν)) (k : κ) (v : ν) (h : keysNodup l) :
    keysNodup (assocSet l k v) := by
  induction l with
  | nil => simp [keysNodup, assocSet]
  | cons p rest ih =>
    obtain ⟨k', v'⟩ := p
    simp only [keysNodup, List.map_cons, List.nodup_cons] at h
    by_cases hk : k' = k
    · subst hk
      simpa [assocSet, keysNodup] using h
    · have hrest : keysNodup (assocSet rest k v) := ih h.2
      simp only [assocSet, if_neg hk, keysNodup, List.map_cons, List.nodup_cons]
      refine ⟨fun hmem => ?_, hrest⟩
      rcases mem_keys_assocSet rest k v k' hmem with rfl | hmem'
      · exact hk rfl
      · exact h.1 hmem'

theorem lookup_mem {κ ν : Type} [DecidableEq κ] [BEq κ] [LawfulBEq κ]
    (l : List (κ × ν)) (k : κ) (v : ν) (h : l.lookup k = some v) : (k, v) ∈ l := by
  induction l with
  | nil => simp [lookup_nil] at h
  | cons p rest ih =>
    obtain ⟨k', v'⟩ := p
    by_cases hk : k = k'
    · subst hk
      rw [lookup_cons, if_pos rfl] at h
      cases h
      exact List.mem_cons_self _ _
    · rw [lookup_cons, if_neg hk] at h
      exact List.mem_cons_of_mem _ (ih h)

theorem futSet_cons (a : Nat) (b : FutureStatus) (rest : List (Nat × FutureStatus))
    (fid : Nat) (f : FutureStatus → FutureStatus) :
    futSet ((a, b) :: rest) fid f =
      (if a = fid then (a, f b) else (a, b)) :: futSet rest fid f := rfl

theorem lookup_futSet_self (l : List (Nat × FutureStatus)) (fid : Nat)
    (f : FutureStatus → FutureStatus) :
    (futSet l fid f).lookup fid = (l.lookup fid).map f := by
  induction l with
  | nil => rfl
  | cons p rest ih =>
    obtain ⟨a, b⟩ := p
    rw [futSet_cons]
    by_cases h : a = fid
    · subst h
      rw [if_pos rfl, lookup_cons, if_pos rfl, lookup_cons, if_pos rfl]
      rfl
    · rw [if_neg h, lookup_cons, if_neg (Ne.symm h), lookup_cons, if_neg (Ne.symm h), ih]

theorem lookup_futSet_ne (l : List (Nat × FutureStatus)) (fid : Nat)
    (f : FutureStatus → FutureStatus) (g : Nat) (hne : g ≠ fid) :
    (futSet l fid f).lookup g = l.lookup g := by
  induction l with
  | nil => rfl
  | cons p rest ih =>
    obtain ⟨a, b⟩ := p
    rw [futSet_cons]
    by_cases h : a = fid
    · subst h
      rw [if_pos rfl, lookup_cons, lookup_cons, if_neg hne, if_neg hne, ih]
    · rw [if_neg h, lookup_cons, lookup_cons, ih]

theorem futCancel_map_idem (o : Option FutureStatus) :
    (o.map futCancel).map futCancel = o.map futCancel := by
  cases o with
  | none => rfl
  | some s => cases s <;> rfl

theorem cancelConfirmations_nil (futs : List (Nat × FutureStatus)) :
    cancelConfirmations [] futs = futs := rfl

theorem cancelConfirmations_cons (p : Int × Nat) (rest : List (Int × Nat))
    (futs : List (Nat × FutureStatus)) :
    cancelConfirmations (p :: rest) futs =
      cancelConfirmations rest (futSet futs p.2 futCancel) := rfl

theorem lookup_cancelConfirmations_not_mem (entries : List (Int × Nat))
    (futs : List (Nat × FutureStatus)) (fid : Nat)
    (h : fid ∉ entries.map Prod.snd) :
    (cancelConfirmations entries futs).lookup fid = futs.lookup fid := by
  induction entries generalizing futs with
  | nil => rfl
  | cons p rest ih =>
    simp only [List.map_cons, List.mem_cons, not_or] at h
    rw [cancelConfirmations_cons, ih _ h.2, lookup_futSet_ne _ _ _ _ h.1]

theorem lookup_cancelConfirmations_mem (entries : List (Int × Nat))
    (futs : List (Nat × FutureStatus)) (fid : Nat)
    (h : fid ∈ entries.map Prod.snd) :
    (cancelConfirmations entries futs).lookup fid = (futs.lookup fid).map futCancel := by
  induction entries generalizing futs with
  | nil => simp at h
  | cons p rest ih =>
    rw [cancelConfirmations_cons]
    by_cases hmem : fid ∈ rest.map Prod.snd
    · rw [ih _ hmem]
      by_cases hp : fid = p.2
      · subst hp
        rw [lookup_futSet_self, futCancel_map_idem]
      · rw [lookup_futSet_ne _ _ _ _ hp]
    · have hp : fid = p.2 := by
        simp only [List.map_cons, List.mem_cons] at h
        tauto
      subst hp
      rw [lookup_cancelConfirmations_not_mem _ _ _ hmem, lookup_futSet_self]

/-! ### Equation lemmas for `send` and `getOrAddConnectionState` -/

/-- The error `send` returns to its caller, as a function of the write and wait
outcomes: write errors dominate, otherwise only a timeout is an error. -/
def sendReturnedError (w : WriteOutcome) (wait : WaitOutcome) : Option SendError :=
  match w, wait with
  | WriteOutcome.fails, _ => some SendError.writeError
  | WriteOutcome.ok, WaitOutcome.confirmed => none
  | WriteOutcome.ok, WaitOutcome.timedOut => some SendError.timeoutError

/-- The frames a `send` call appends to the socket stream. -/
def sendWrittenFrames (c : DatabaseChanges) (command value : String)
    (w : WriteOutcome) : List OutFrame :=
  match w with
  | WriteOutcome.ok =>
      [{ CommandId := c.commandId + 1, Command := command, Param := value }]
  | WriteOutcome.fails => []

/-- Closed form of `send` on a connected instance whose confirmations table is
initialized: `_commandId` is incremented, the frame is written on a successful
write, and the pending future is registered under the fresh id on every
non-panicking path. -/
theorem send_eq (c : DatabaseChanges) (command value : String) (w : WriteOutcome)
    (wait : WaitOutcome) (fm : List (Int × Nat))
    (hconn : c.clientConnected = true) (hfm : c.confirmations = some fm) :
    send c command value w wait =
      Except.ok (sendReturnedError w wait,
        { c with
          futures := c.futures ++ [(c.nextFutureId, FutureStatus.pending)]
          nextFutureId := c.nextFutureId + 1
          commandId := c.commandId + 1
          sent := c.sent ++ sendWrittenFrames c command value w
          confirmations := some (assocSet fm (c.commandId + 1) c.nextFutureId) }) := by
  obtain ⟨cid, conn, scc, conf, futs, nfid, ctrs, nsid, imm, snt, cts, od, dc⟩ := c
  obtain rfl : conn = true := hconn
  obtain rfl : conf = some fm := hfm
  cases w <;> cases wait <;>
    simp [send, sendReturnedError, sendWrittenFrames, goSet]

/-- `getOrAddConnectionState` returns the registered Subscription State without
touching anything when the watch-target key is already present. -/
theorem getOrAdd_found (c : DatabaseChanges)
    (name watchCommand unwatchCommand value : String) (w : WriteOutcome)
    (wait : WaitOutcome) (st : DatabaseConnectionState)
    (h : goLookup c.counters name = some st) :
    getOrAddConnectionState c name watchCommand unwatchCommand value w wait =
      Except.ok (st, c) := by
  unfold getOrAddConnectionState
  rw [h]

/-- The Subscription State `getOrAddConnectionState` allocates for a fresh key. -/
def freshState (c : DatabaseChanges) (watchCommand unwatchCommand value : String) :
    DatabaseConnectionState :=
  { stateId := c.nextStateId
    watchCommand := watchCommand
    unwatchCommand := unwatchCommand
    value := value }

/-- Closed form of `getOrAddConnectionState` for a fresh key when
`_immediateConnection == 0`, so the new state's onConnect runs and sends the
watch command (with the send's error ignored). -/
theorem getOrAdd_fresh_eq (c : DatabaseChanges)
    (cm : List (String × DatabaseConnectionState)) (fm : List (Int × Nat))
    (name watchCommand unwatchCommand value : String)
    (w : WriteOutcome) (wait : WaitOutcome)
    (hcm : c.counters = some cm) (hfm : c.confirmations = some fm)
    (hconn : c.clientConnected = true) (hfresh : cm.lookup name = none)
    (himm : c.immediateConnection = 0) :
    getOrAddConnectionState c name watchCommand unwatchCommand value w wait =
      Except.ok (freshState c watchCommand unwatchCommand value,
        { c with
          counters := some (assocSet cm name (freshState c watchCommand unwatchCommand value))
          nextStateId := c.nextStateId + 1
          futures := c.futures ++ [(c.nextFutureId, FutureStatus.pending)]
          nextFutureId := c.nextFutureId + 1
          commandId := c.commandId + 1
          sent := c.sent ++ sendWrittenFrames c watchCommand value w
          confirmations := some (assocSet fm (c.commandId + 1) c.nextFutureId) }) := by
  obtain ⟨cid, conn, scc, conf, futs, nfid, ctrs, nsid, imm, snt, cts, od, dc⟩ := c
  obtain rfl : conn = true := hconn
  obtain rfl : conf = some fm := hfm
  obtain rfl : ctrs = some cm := hcm
  obtain rfl : imm = 0 := himm
  have hlook : goLookup (some cm) name = (none : Option DatabaseConnectionState) := hfresh
  cases w <;> cases wait <;>
    simp [getOrAddConnectionState, hlook, goSet, send, freshState, sendWrittenFrames]

/-- Closed form of `getOrAddConnectionState` for a fresh key when
`_immediateConnection != 0`: the state is registered and nothing is sent. -/
theorem getOrAdd_fresh_eq_noSend (c : DatabaseChanges)
    (cm : List (String × DatabaseConnectionState))
    (name watchCommand unwatchCommand value : String)
    (w : WriteOutcome) (wait : WaitOutcome)
    (hcm : c.counters = some cm) (hfresh : cm.lookup name = none)
    (himm : c.immediateConnection ≠ 0) :
    getOrAddConnectionState c name watchCommand unwatchCommand value w wait =
      Except.ok (freshState c watchCommand unwatchCommand value,
        { c with
          counters := some (assocSet cm name (freshState c watchCommand unwatchCommand value))
          nextStateId := c.nextStateId + 1 }) := by
  obtain ⟨cid, conn, scc, conf, futs, nfid, ctrs, nsid, imm, snt, cts, od, dc⟩ := c
  obtain rfl : ctrs = some cm := hcm
  have hlook : goLookup (some cm) name = (none : Option DatabaseConnectionState) := hfresh
  have himm' : ¬(imm = 0) := himm
  cases w <;> cases wait <;>
    simp [getOrAddConnectionState, hlook, goSet, freshState, himm']

/-! ### Claim theorems -/

/-- C4: for a Document-change notification whose id is "orders/1", the filter
of forDocument("orders/1") returns true and that of forDocument("orders/2")
returns false; the filter of forDocumentsStartingWith("orders/") returns true
and that of forDocumentsStartingWith("users/") returns false; both comparisons
are case-insensitive, and the prefix filter returns false without faulting
when the prefix is longer than the document id. -/
theorem c4_filter_correctness :
    forDocumentFilter "orders/1"
      { ID := "orders/1", CollectionName := "Orders", TypeName := "Order" } = true ∧
    forDocumentFilter "orders/2"
      { ID := "orders/1", CollectionName := "Orders", TypeName := "Order" } = false ∧
    forDocumentsStartingWithFilter "orders/"
      { ID := "orders/1", CollectionName := "Orders", TypeName := "Order" } = true ∧
    forDocumentsStartingWithFilter "users/"
      { ID := "orders/1", CollectionName := "Orders", TypeName := "Order" } = false ∧
    forDocumentFilter "ORDERS/1"
      { ID := "orders/1", CollectionName := "Orders", TypeName := "Order" } = true ∧
    forDocumentsStartingWithFilter "ORDERS/"
      { ID := "orders/1", CollectionName := "Orders", TypeName := "Order" } = true ∧
    forDocumentsStartingWithFilter "orders/123"
      { ID := "orders/1", CollectionName := "Orders", TypeName := "Order" } = false := by
  decide

/-- C5: forDocumentsInCollection("") and forDocumentsOfType("") synchronously
return the invalid-argument error with the state untouched, so no Subscription
State is created and nothing reaches the network; for non-empty names the
returned result is never an invalid-argument error. -/
theorem c5_empty_name_rejected_synchronously :
    (∀ (c : DatabaseChanges) (w : WriteOutcome) (wait : WaitOutcome),
      forDocumentsInCollection c "" w wait =
        Except.ok
          (Except.error (SubscribeError.illegalArgument "CollectionName cannot be empty"), c)) ∧
    (∀ (c : DatabaseChanges) (w : WriteOutcome) (wait : WaitOutcome),
      forDocumentsOfType c "" w wait =
        Except.ok
          (Except.error (SubscribeError.illegalArgument "TypeName cannot be empty"), c)) ∧
    (∀ (c : DatabaseChanges) (cn : String) (w : WriteOutcome) (wait : WaitOutcome)
        (r : Except SubscribeError DocChangesObservable) (c' : DatabaseChanges),
      cn ≠ "" → forDocumentsInCollection c cn w wait = Except.ok (r, c') →
        ∃ obs, r = Except.ok obs) ∧
    (∀ (c : DatabaseChanges) (tn : String) (w : WriteOutcome) (wait : WaitOutcome)
        (r : Except SubscribeError DocChangesObservable) (c' : DatabaseChanges),
      tn ≠ "" → forDocumentsOfType c tn w wait = Except.ok (r, c') →
        ∃ obs, r = Except.ok obs) := by
  refine ⟨fun c w wait => by simp [forDocumentsInCollection],
    fun c w wait => by simp [forDocumentsOfType], ?_, ?_⟩
  · intro c cn w wait r c' hne heq
    unfold forDocumentsInCollection at heq
    rw [if_neg hne] at heq
    rcases hg : getOrAddConnectionState c ("collections/" ++ cn) "watch-collection"
        "unwatch-collection" cn w wait with p | q
    · rw [hg] at heq
      simp at heq
    · obtain ⟨counter, c₂⟩ := q
      rw [hg] at heq
      simp only [Except.ok.injEq, Prod.mk.injEq] at heq
      exact ⟨_, heq.1.symm⟩
  · intro c tn w wait r c' hne heq
    unfold forDocumentsOfType at heq
    rw [if_neg hne] at heq
    dsimp only at heq
    rcases hg : getOrAddConnectionState c ("types/" ++ tn) "watch-type"
        "unwatch-type" (UrlUtils_escapeDataString tn) w wait with p | q
    · rw [hg] at heq
      simp at heq
    · obtain ⟨counter, c₂⟩ := q
      rw [hg] at heq
      simp only [Except.ok.injEq, Prod.mk.injEq] at heq
      exact ⟨_, heq.1.symm⟩

/-- C5 witness: the two rejections at the value built by `NewDatabaseChanges`,
and two successful non-empty subscriptions at a connected instance. -/
theorem c5_empty_name_rejected_synchronously_witness :
    (forDocumentsInCollection (NewDatabaseChanges false) "" WriteOutcome.ok
        WaitOutcome.confirmed =
      Except.ok
        (Except.error (SubscribeError.illegalArgument "CollectionName cannot be empty"),
          NewDatabaseChanges false)) ∧
    (forDocumentsOfType (NewDatabaseChanges false) "" WriteOutcome.ok WaitOutcome.confirmed =
      Except.ok
        (Except.error (SubscribeError.illegalArgument "TypeName cannot be empty"),
          NewDatabaseChanges false)) ∧
    (∃ r c', forDocumentsInCollection readyState "Orders" WriteOutcome.ok
        WaitOutcome.confirmed = Except.ok (r, c') ∧ ∃ obs, r = Except.ok obs) ∧
    (∃ r c', forDocumentsOfType readyState "Order" WriteOutcome.ok WaitOutcome.confirmed =
        Except.ok (r, c') ∧ ∃ obs, r = Except.ok obs) := by
  have h := c5_empty_name_rejected_synchronously
  refine ⟨h.1 _ _ _, h.2.1 _ _ _, ⟨_, _, rfl, ?_⟩, ⟨_, _, rfl, ?_⟩⟩
  · exact h.2.2.1 readyState "Orders" WriteOutcome.ok WaitOutcome.confirmed _ _
      (by decide) rfl
  · exact h.2.2.2 readyState "Order" WriteOutcome.ok WaitOutcome.confirmed _ _
      (by decide) rfl

/-- C9: `NewDatabaseChanges` leaves both `_counters` and `_confirmations` as
nil maps; consequently the first insertion into `_counters` (inside
`getOrAddConnectionState`) and the first insertion into `_confirmations`
(inside `send`, here on the instance with its socket connected) hit Go's
"assignment to entry in nil map" panic instead of executing without a
runtime fault. -/
theorem c9_first_map_inserts_fault :
    (NewDatabaseChanges false).counters = none ∧
    (NewDatabaseChanges false).confirmations = none ∧
    getOrAddConnectionState (NewDatabaseChanges false) "docs/orders/1" "watch-doc"
      "unwatch-doc" "orders/1" WriteOutcome.ok WaitOutcome.confirmed =
      Except.error GoPanic.nilMapWrite ∧
    send { NewDatabaseChanges false with clientConnected := true } "watch-docs" ""
      WriteOutcome.ok WaitOutcome.confirmed = Except.error GoPanic.nilMapWrite :=
  ⟨rfl, rfl, rfl, rfl⟩

/-- C1 counterexample: on the value built by `NewDatabaseChanges`, the first
`getOrAddConnectionState` call (here with forDocument("orders/1")'s
watch-target key) panics on the nil `_counters` map instead of creating and
registering a Subscription State. -/
theorem c1_counterexample :
    getOrAddConnectionState (NewDatabaseChanges false) "docs/orders/1" "watch-doc"
      "unwatch-doc" "orders/1" WriteOutcome.ok WaitOutcome.confirmed =
      Except.error GoPanic.nilMapWrite :=
  rfl

/-- C1 (amended): provided the `_counters`/`_confirmations` tables are
initialized and the socket is connected, `getOrAddConnectionState` creates
exactly one Subscription State on the first call with a fresh watch-target key,
every later call with that key returns that very state with the instance
unchanged (so all subsequent calls keep returning it), and key uniqueness —
at most one Subscription State per distinct key — is preserved. -/
theorem c1_one_state_per_key (c : DatabaseChanges)
    (cm : List (String × DatabaseConnectionState)) (fm : List (Int × Nat))
    (name watchCommand unwatchCommand value : String)
    (w : WriteOutcome) (wait : WaitOutcome)
    (hcm : c.counters = some cm) (hfm : c.confirmations = some fm)
    (hconn : c.clientConnected = true) (hfresh : cm.lookup name = none) :
    ∃ (st : DatabaseConnectionState) (c' : DatabaseChanges),
      getOrAddConnectionState c name watchCommand unwatchCommand value w wait =
        Except.ok (st, c') ∧
      goLookup c'.counters name = some st ∧
      getOrAddConnectionState c' name watchCommand unwatchCommand value w wait =
        Except.ok (st, c') ∧
      (keysNodup cm → countersKeysNodup c') := by
  by_cases himm : c.immediateConnection = 0
  · refine ⟨freshState c watchCommand unwatchCommand value, _,
      getOrAdd_fresh_eq c cm fm name watchCommand unwatchCommand value w wait
        hcm hfm hconn hfresh himm, ?_, ?_, ?_⟩
    · exact lookup_assocSet_self cm name _
    · exact getOrAdd_found _ name watchCommand unwatchCommand value w wait _
        (lookup_assocSet_self cm name _)
    · exact fun hnd => keysNodup_assocSet cm name _ hnd
  · refine ⟨freshState c watchCommand unwatchCommand value, _,
      getOrAdd_fresh_eq_noSend c cm name watchCommand unwatchCommand value w wait
        hcm hfresh himm, ?_, ?_, ?_⟩
    · exact lookup_assocSet_self cm name _
    · exact getOrAdd_found _ name watchCommand unwatchCommand value w wait _
        (lookup_assocSet_self cm name _)
    · exact fun hnd => keysNodup_assocSet cm name _ hnd

/-- C1 witness: the amended statement at a concrete connected instance with
initialized tables. -/
theorem c1_one_state_per_key_witness :
    ∃ (st : DatabaseConnectionState) (c' : DatabaseChanges),
      getOrAddConnectionState readyState "docs/orders/1" "watch-doc" "unwatch-doc"
        "orders/1" WriteOutcome.ok WaitOutcome.confirmed = Except.ok (st, c') ∧
      goLookup c'.counters "docs/orders/1" = some st ∧
      getOrAddConnectionState c' "docs/orders/1" "watch-doc" "unwatch-doc" "orders/1"
        WriteOutcome.ok WaitOutcome.confirmed = Except.ok (st, c') ∧
      (keysNodup ([] : List (String × DatabaseConnectionState)) → countersKeysNodup c') :=
  c1_one_state_per_key readyState [] [] "docs/orders/1" "watch-doc" "unwatch-doc"
    "orders/1" WriteOutcome.ok WaitOutcome.confirmed rfl rfl rfl rfl

/-- C3 counterexample: at a concrete connected instance, a send whose Confirm
does not arrive within the bound returns the timeout error, yet the Pending
Command registered under the assigned id 1 is still present in the
confirmations table after send returns — the claim's removal does not
happen. -/
theorem c3_counterexample :
    send readyState "watch-doc" "orders/1" WriteOutcome.ok WaitOutcome.timedOut =
      Except.ok (some SendError.timeoutError,
        { readyState with
          futures := [(0, FutureStatus.pending)]
          nextFutureId := 1
          commandId := 1
          sent := [{ CommandId := 1, Command := "watch-doc", Param := "orders/1" }]
          confirmations := some [(1, 0)] }) ∧
    goLookup (some [((1 : Int), (0 : Nat))]) (1 : Int) = some 0 :=
  ⟨rfl, rfl⟩

/-- C3 (amended): when no Confirm for the assigned id arrives within the
15-second bound, `send` returns the timeout error to its caller, but the
Pending Command registered under that id REMAINS in the confirmations table
(no path in `send` deletes it; only `Close` disposes of the entries). -/
theorem c3_timeout_error_entry_kept (c : DatabaseChanges) (fm : List (Int × Nat))
    (command value : String)
    (hconn : c.clientConnected = true) (hfm : c.confirmations = some fm) :
    ∃ c', send c command value WriteOutcome.ok WaitOutcome.timedOut =
        Except.ok (some SendError.timeoutError, c') ∧
      goLookup c'.confirmations (c.commandId + 1) = some c.nextFutureId :=
  ⟨_, send_eq c command value WriteOutcome.ok WaitOutcome.timedOut fm hconn hfm,
    lookup_assocSet_self fm _ _⟩

/-- C3 witness: the amended statement at a concrete connected instance. -/
theorem c3_timeout_error_entry_kept_witness :
    ∃ c', send readyState "watch-doc" "orders/1" WriteOutcome.ok WaitOutcome.timedOut =
        Except.ok (some SendError.timeoutError, c') ∧
      goLookup c'.confirmations (readyState.commandId + 1) = some readyState.nextFutureId :=
  c3_timeout_error_entry_kept readyState [] "watch-doc" "orders/1" rfl rfl

/-- C2: a Confirm frame carrying command id N completes exactly the pending
future registered for N — every other future keeps its status and the
confirmations table itself is untouched — while a Confirm for an id with no
registered Pending Command (or a Confirm without a usable id) leaves the whole
state unchanged. -/
theorem c2_confirm_completes_exactly_one (c : DatabaseChanges) (n : Int) (fid : Nat)
    (hreg : goLookup c.confirmations n = some fid)
    (hpend : c.futures.lookup fid = some FutureStatus.pending) :
    (processConfirmFrame c (some n)).futures.lookup fid = some FutureStatus.completed ∧
    (∀ g, g ≠ fid →
      (processConfirmFrame c (some n)).futures.lookup g = c.futures.lookup g) ∧
    (processConfirmFrame c (some n)).confirmations = c.confirmations ∧
    (∀ (c₂ : DatabaseChanges) (m : Int), goLookup c₂.confirmations m = none →
      processConfirmFrame c₂ (some m) = c₂) ∧
    (∀ c₂ : DatabaseChanges, processConfirmFrame c₂ none = c₂) := by
  have hred : processConfirmFrame c (some n) =
      { c with futures := futSet c.futures fid futComplete } := by
    simp only [processConfirmFrame]
    rw [hreg]
  refine ⟨?_, ?_, ?_, ?_, fun c₂ => rfl⟩
  · rw [hred]
    show (futSet c.futures fid futComplete).lookup fid = some FutureStatus.completed
    rw [lookup_futSet_self, hpend]
    rfl
  · intro g hg
    rw [hred]
    show (futSet c.futures fid futComplete).lookup g = c.futures.lookup g
    exact lookup_futSet_ne _ _ _ _ hg
  · rw [hred]
  · intro c₂ m h
    simp only [processConfirmFrame]
    rw [h]

/-- A connected instance with two in-flight commands (ids 1 and 2, futures 0
and 1), used as a concrete fixture for the confirmation claims. -/
def confirmDemoState : DatabaseChanges :=
  { readyState with
    confirmations := some [(1, 0), (2, 1)]
    futures := [(0, FutureStatus.pending), (1, FutureStatus.pending)]
    nextFutureId := 2
    commandId := 2 }

/-- C2 witness: confirming id 1 completes future 0, leaves future 1 alone, and
a Confirm for the unknown id 5 changes nothing. -/
theorem c2_confirm_completes_exactly_one_witness :
    (processConfirmFrame confirmDemoState (some 1)).futures.lookup 0 =
      some FutureStatus.completed ∧
    (processConfirmFrame confirmDemoState (some 1)).futures.lookup 1 =
      confirmDemoState.futures.lookup 1 ∧
    processConfirmFrame confirmDemoState (some 5) = confirmDemoState :=
  ⟨(c2_confirm_completes_exactly_one confirmDemoState 1 0 rfl rfl).1,
    (c2_confirm_completes_exactly_one confirmDemoState 1 0 rfl rfl).2.1 1 (by decide),
    (c2_confirm_completes_exactly_one confirmDemoState 1 0 rfl rfl).2.2.2.1
      confirmDemoState 5 rfl⟩

/-- C6: under the writer lock, `send` assigns `_commandId + 1`, a strictly
larger id than every id already registered in the confirmations table (so no
id is ever reassigned while a Pending Command for an earlier id can still
exist), the bound is preserved, and a later send receives a strictly larger id
again. -/
theorem c6_command_ids_strictly_increase (c : DatabaseChanges)
    (command value : String) (w : WriteOutcome) (wait : WaitOutcome)
    (fm : List (Int × Nat))
    (hconn : c.clientConnected = true) (hfm : c.confirmations = some fm)
    (hbound : confirmationIdsBounded c) :
    ∃ c', send c command value w wait = Except.ok (sendReturnedError w wait, c') ∧
      c'.commandId = c.commandId + 1 ∧
      goLookup c.confirmations (c.commandId + 1) = none ∧
      goLookup c'.confirmations (c.commandId + 1) = some c.nextFutureId ∧
      confirmationIdsBounded c' ∧
      (∀ (command₂ value₂ : String) (w₂ : WriteOutcome) (wait₂ : WaitOutcome), ∃ c₂,
        send c' command₂ value₂ w₂ wait₂ = Except.ok (sendReturnedError w₂ wait₂, c₂) ∧
        c₂.commandId = c.commandId + 2 ∧ c'.commandId < c₂.commandId) := by
  have hfreshId : goLookup c.confirmations (c.commandId + 1) = none := by
    cases hl : goLookup c.confirmations (c.commandId + 1) with
    | none => rfl
    | some fid =>
      have := hbound _ _ hl
      omega
  refine ⟨_, send_eq c command value w wait fm hconn hfm, rfl, hfreshId,
    lookup_assocSet_self fm _ _, ?_, ?_⟩
  · intro k fid hk
    have hk' : (assocSet fm (c.commandId + 1) c.nextFutureId).lookup k = some fid := hk
    show k ≤ c.commandId + 1
    by_cases hkk : k = c.commandId + 1
    · omega
    · rw [lookup_assocSet_ne fm _ _ k hkk] at hk'
      have hle : k ≤ c.commandId := hbound k fid (by rw [hfm]; exact hk')
      omega
  · intro command₂ value₂ w₂ wait₂
    refine ⟨_, send_eq _ command₂ value₂ w₂ wait₂
      (assocSet fm (c.commandId + 1) c.nextFutureId) hconn rfl, ?_, ?_⟩
    · show c.commandId + 1 + 1 = c.commandId + 2
      omega
    · show c.commandId + 1 < c.commandId + 1 + 1
      omega

/-- C6 witness: the id-assignment claims at a concrete connected instance. -/
theorem c6_command_ids_strictly_increase_witness :
    ∃ c', send readyState "watch-docs" "" WriteOutcome.ok WaitOutcome.confirmed =
        Except.ok (sendReturnedError WriteOutcome.ok WaitOutcome.confirmed, c') ∧
      c'.commandId = readyState.commandId + 1 ∧
      goLookup readyState.confirmations (readyState.commandId + 1) = none ∧
      goLookup c'.confirmations (readyState.commandId + 1) = some readyState.nextFutureId ∧
      confirmationIdsBounded c' ∧
      (∀ (command₂ value₂ : String) (w₂ : WriteOutcome) (wait₂ : WaitOutcome), ∃ c₂,
        send c' command₂ value₂ w₂ wait₂ = Except.ok (sendReturnedError w₂ wait₂, c₂) ∧
        c₂.commandId = readyState.commandId + 2 ∧ c'.commandId < c₂.commandId) :=
  c6_command_ids_strictly_increase readyState "watch-docs" "" WriteOutcome.ok
    WaitOutcome.confirmed [] rfl rfl (fun _ _ h => Option.noConfusion h)

/-- Closed form of `Close` on an instance whose socket is open. -/
theorem Close_eq (c : DatabaseChanges) (hconn : c.clientConnected = true) :
    Close c = Except.ok
      { c with
        futures := cancelConfirmations (goEntries c.confirmations) c.futures
        socketCloseCount := c.socketCloseCount + 1
        clientConnected := false
        ctsCancelled := true
        counters := none
        disposeCount :=
          if c.onDisposeSupplied then c.disposeCount + 1 else c.disposeCount } := by
  obtain ⟨cid, conn, scc, conf, futs, nfid, ctrs, nsid, imm, snt, cts, od, dc⟩ := c
  obtain rfl : conn = true := hconn
  cases od <;> simp [Close]

/-- C7: on an instance whose socket is open, `Close` cancels every outstanding
(pending) confirmation future, closes the socket exactly once and nils the
client, cancels the token source, invokes the dispose hook exactly once when
one was supplied (and never otherwise), and leaves the Subscription State
table empty. -/
theorem c7_close_semantics (c : DatabaseChanges)
    (hconn : c.clientConnected = true) (hsc : c.socketCloseCount = 0)
    (hdc : c.disposeCount = 0) :
    ∃ c', Close c = Except.ok c' ∧
      (∀ (cid : Int) (fid : Nat), goLookup c.confirmations cid = some fid →
        c.futures.lookup fid = some FutureStatus.pending →
        c'.futures.lookup fid = some FutureStatus.cancelled) ∧
      c'.socketCloseCount = 1 ∧
      c'.clientConnected = false ∧
      c'.disposeCount = (if c.onDisposeSupplied then 1 else 0) ∧
      c'.counters = none ∧
      (∀ k, goLookup c'.counters k = none) ∧
      c'.ctsCancelled = true := by
  refine ⟨_, Close_eq c hconn, ?_, ?_, rfl, ?_, rfl, fun k => rfl, rfl⟩
  · intro cid fid hcf hp
    show (cancelConfirmations (goEntries c.confirmations) c.futures).lookup fid =
      some FutureStatus.cancelled
    have hmem : fid ∈ (goEntries c.confirmations).map Prod.snd := by
      cases hc : c.confirmations with
      | none =>
        rw [hc] at hcf
        exact Option.noConfusion hcf
      | some tbl =>
        rw [hc] at hcf
        have : (cid, fid) ∈ tbl := lookup_mem tbl cid fid hcf
        simpa [goEntries] using List.mem_map_of_mem Prod.snd this
    rw [lookup_cancelConfirmations_mem _ _ _ hmem, hp]
    rfl
  · show c.socketCloseCount + 1 = 1
    rw [hsc]
  · show (if c.onDisposeSupplied then c.disposeCount + 1 else c.disposeCount) =
      (if c.onDisposeSupplied then 1 else 0)
    rw [hdc]

/-- A connected instance with one outstanding pending command and a dispose
hook supplied, used as a concrete fixture for the close claim. -/
def closeDemoState : DatabaseChanges :=
  { readyState with
    confirmations := some [(1, 0)]
    futures := [(0, FutureStatus.pending)]
    nextFutureId := 1
    commandId := 1
    onDisposeSupplied := true }

/-- C7 witness: the close semantics at the concrete fixture. -/
theorem c7_close_semantics_witness :
    ∃ c', Close closeDemoState = Except.ok c' ∧
      (∀ (cid : Int) (fid : Nat), goLookup closeDemoState.confirmations cid = some fid →
        closeDemoState.futures.lookup fid = some FutureStatus.pending →
        c'.futures.lookup fid = some FutureStatus.cancelled) ∧
      c'.socketCloseCount = 1 ∧
      c'.clientConnected = false ∧
      c'.disposeCount = (if closeDemoState.onDisposeSupplied then 1 else 0) ∧
      c'.counters = none ∧
      (∀ k, goLookup c'.counters k = none) ∧
      c'.ctsCancelled = true :=
  c7_close_semantics closeDemoState rfl rfl rfl

/-- C8: for a non-empty type name, forDocumentsOfType sends the watch-type
command whose wire Param is the PERCENT-ESCAPED type name (and registers that
escaped name as the Subscription State's command parameter), while the
returned observable's filter compares the UNescaped type name with the
notification's type name, case-insensitively. -/
theorem c8_type_escaped_on_wire_unescaped_filter (c : DatabaseChanges)
    (typeName : String) (cm : List (String × DatabaseConnectionState))
    (fm : List (Int × Nat)) (wait : WaitOutcome)
    (hne : typeName ≠ "") (hcm : c.counters = some cm)
    (hfm : c.confirmations = some fm) (hconn : c.clientConnected = true)
    (hfresh : cm.lookup ("types/" ++ typeName) = none)
    (himm : c.immediateConnection = 0) :
    ∃ obs c', forDocumentsOfType c typeName WriteOutcome.ok wait =
        Except.ok (Except.ok obs, c') ∧
      c'.sent = c.sent ++
        [{ CommandId := c.commandId + 1, Command := "watch-type",
           Param := UrlUtils_escapeDataString typeName }] ∧
      obs.counter.value = UrlUtils_escapeDataString typeName ∧
      (∀ v : DocumentChange, obs.filter v = equalFold typeName v.TypeName) := by
  have hga := getOrAdd_fresh_eq c cm fm ("types/" ++ typeName) "watch-type"
    "unwatch-type" (UrlUtils_escapeDataString typeName) WriteOutcome.ok wait
    hcm hfm hconn hfresh himm
  refine ⟨{ counter := freshState c "watch-type" "unwatch-type"
              (UrlUtils_escapeDataString typeName),
            filter := forDocumentsOfTypeFilter typeName },
    { c with
      counters := some (assocSet cm ("types/" ++ typeName)
        (freshState c "watch-type" "unwatch-type" (UrlUtils_escapeDataString typeName)))
      nextStateId := c.nextStateId + 1
      futures := c.futures ++ [(c.nextFutureId, FutureStatus.pending)]
      nextFutureId := c.nextFutureId + 1
      commandId := c.commandId + 1
      sent := c.sent ++
        sendWrittenFrames c "watch-type" (UrlUtils_escapeDataString typeName) WriteOutcome.ok
      confirmations := some (assocSet fm (c.commandId + 1) c.nextFutureId) },
    ?_, rfl, rfl, fun v => rfl⟩
  unfold forDocumentsOfType
  rw [if_neg hne]
  dsimp only
  rw [hga]

/-- C8 witness: a type name containing a space, whose escaped form differs
from the local comparison target. -/
theorem c8_type_escaped_on_wire_unescaped_filter_witness :
    ∃ obs c', forDocumentsOfType readyState "Order Line" WriteOutcome.ok
        WaitOutcome.confirmed = Except.ok (Except.ok obs, c') ∧
      c'.sent = readyState.sent ++
        [{ CommandId := readyState.commandId + 1, Command := "watch-type",
           Param := UrlUtils_escapeDataString "Order Line" }] ∧
      obs.counter.value = UrlUtils_escapeDataString "Order Line" ∧
      (∀ v : DocumentChange, obs.filter v = equalFold "Order Line" v.TypeName) :=
  c8_type_escaped_on_wire_unescaped_filter readyState "Order Line" [] []
    WaitOutcome.confirmed (by decide) rfl rfl rfl rfl rfl

/-- C10: when the socket write inside `send` fails, `send` returns the write
error but the Pending Command for the freshly assigned id has nevertheless
been registered and remains in the confirmations table; more generally no
path of `send` removes an existing entry, and the Confirm-frame handler never
changes the confirmations table at all (a confirmed future is completed but
its entry is kept). -/
theorem c10_confirmations_never_deleted (c : DatabaseChanges) (fm : List (Int × Nat))
    (command value : String) (wait : WaitOutcome)
    (hconn : c.clientConnected = true) (hfm : c.confirmations = some fm) :
    (∃ c', send c command value WriteOutcome.fails wait =
        Except.ok (some SendError.writeError, c') ∧
      goLookup c'.confirmations (c.commandId + 1) = some c.nextFutureId) ∧
    (∀ (w : WriteOutcome) (r : Option SendError) (c' : DatabaseChanges),
      send c command value w wait = Except.ok (r, c') →
      ∀ (k : Int) (fid : Nat), goLookup c.confirmations k = some fid →
        ∃ fid', goLookup c'.confirmations k = some fid') ∧
    (∀ (c₂ : DatabaseChanges) (n : Option Int),
      (processConfirmFrame c₂ n).confirmations = c₂.confirmations) := by
  refine ⟨⟨_, send_eq c command value WriteOutcome.fails wait fm hconn hfm,
      lookup_assocSet_self fm _ _⟩, ?_, ?_⟩
  · intro w r c' heq k fid hk
    rw [send_eq c command value w wait fm hconn hfm] at heq
    injection heq with hpair
    injection hpair with hr hc
    subst hr
    subst hc
    have hk' : fm.lookup k = some fid := by rw [hfm] at hk; exact hk
    by_cases hkk : k = c.commandId + 1
    · subst hkk
      exact ⟨c.nextFutureId, lookup_assocSet_self fm _ _⟩
    · refine ⟨fid, ?_⟩
      show (assocSet fm (c.commandId + 1) c.nextFutureId).lookup k = some fid
      rw [lookup_assocSet_ne fm _ _ k hkk]
      exact hk'
  · intro c₂ n
    cases n with
    | none => rfl
    | some m => cases hgl : goLookup c₂.confirmations m <;>
        simp [processConfirmFrame, hgl]

/-- C10 witness: a failing write at a concrete instance with one existing
entry, and a Confirm at the same instance. -/
theorem c10_confirmations_never_deleted_witness :
    (∃ c', send confirmDemoState "watch-doc" "orders/1" WriteOutcome.fails
        WaitOutcome.confirmed = Except.ok (some SendError.writeError, c') ∧
      goLookup c'.confirmations (confirmDemoState.commandId + 1) =
        some confirmDemoState.nextFutureId) ∧
    (∀ (w : WriteOutcome) (r : Option SendError) (c' : DatabaseChanges),
      send confirmDemoState "watch-doc" "orders/1" w WaitOutcome.confirmed =
        Except.ok (r, c') →
      ∀ (k : Int) (fid : Nat), goLookup confirmDemoState.confirmations k = some fid →
        ∃ fid', goLookup c'.confirmations k = some fid') ∧
    (∀ (c₂ : DatabaseChanges) (n : Option Int),
      (processConfirmFrame c₂ n).confirmations = c₂.confirmations) :=
  c10_confirmations_never_deleted confirmDemoState [(1, 0), (2, 1)] "watch-doc"
    "orders/1" WaitOutcome.confirmed rfl rfl

end Ravendb
